import Mathlib

/-!
Shallow embedding of `src/ai-chatbot.py` (classes `ToolKit` and `Chatbot`).

External effects (the OpenAI completion call, `json.loads`, HTTP requests,
and the dynamic invocation of a looked-up tool method) are modelled by an
explicit per-turn environment `TurnEnv` supplying their outcomes; the
control flow of the Python source is translated line by line.
-/

namespace AIChatbot

/-- A conversation entry as the Python code builds it:
a dict with a `role` key and a `content` key (both strings). -/
structure Message where
  role : String
  content : String
  deriving DecidableEq, Repr

/-- A tool-call request from the completion response: `tool_call.function.name`
and the JSON-encoded `tool_call.function.arguments` string. -/
structure ToolCallReq where
  name : String
  arguments : String
  deriving DecidableEq, Repr

/-- The extracted `completion.choices[0].message`: `content` (a string or
Python `None`) and `tool_calls` (a list or Python `None`). -/
structure CompletionMsg where
  content : Option String
  tool_calls : Option (List ToolCallReq)

/-- Opaque representation of a decoded JSON value (the result of
`json.loads` on the arguments string); the dispatch never inspects it,
it only splats it into the invoked function. -/
abbrev Args := String

/-- A Python runtime value as far as the dispatch loop observes it:
either a `str`, or some non-string value (tagged by a description).
`ToolKit` methods return strings, but dispatch can also reach attributes
such as `get_tool_definitions`, whose call returns a list. -/
inductive PyVal where
  | str (s : String)
  | other (tag : String)
  deriving DecidableEq, Repr

deriving instance DecidableEq for Except

/-- Outcomes of the external effects during one `process_message` turn:
* `completion msgs` — the result of `client.chat.completions.create`
  on the outgoing message list `msgs` (error = exception raised, carrying
  `str(e)`), already narrowed to `completion.choices[0].message`;
* `jsonLoads s` — the result of `json.loads s` (error = exception raised);
* `invoke name args` — the result of calling the looked-up attribute
  `name` with the decoded arguments (error = exception raised). -/
structure TurnEnv where
  completion : List Message → Except String CompletionMsg
  jsonLoads : String → Except String Args
  invoke : String → Args → Except String PyVal

/-- The attribute names of a `ToolKit` instance as defined in the source
(instance attributes set in `ToolKit.__init__` plus the methods of the
class body; inherited `object` dunder attributes are omitted).  Every one
of them is truthy at runtime: bound methods and the classmethod are always
truthy, `api_keys` is a four-entry dict, `wolfram_client` is a client
object — so `if not function` distinguishes exactly these names. -/
def toolkit_attr_names : List String :=
  ["api_keys", "wolfram_client", "get_weather", "get_news",
   "get_system_metrics", "get_current_time_and_date", "ask_wolfram",
   "get_tool_definitions"]

/-- `Chatbot.system_prompt` (the triple-quoted literal, lines 173-182). -/
def system_prompt : String :=
  "\n        You are a helpful assistant with access to various tools. You can:\n        1. Check weather for any city\n        2. Get latest news updates, optionally filtered by topic\n        3. Check system performance metrics\n        4. Get current date and time\n        5. Query Wolfram Alpha for calculations and facts\n        \n        Use these tools when appropriate to provide accurate information.\n        "

/-- `Chatbot._format_messages` (lines 184-189): start from the system
message, extend with the conversation history, append the user message. -/
def format_messages (conversation_history : List Message)
    (user_input : String) : List Message :=
  [Message.mk "system" system_prompt] ++ conversation_history
    ++ [Message.mk "user" user_input]

/-- `Chatbot._execute_tool_call` (lines 191-204).  `json.loads` runs
before the `try` block, so its exception propagates (`Except.error`).
`getattr(self.toolkit, function_name, None)` is truthy exactly when the
name is a `ToolKit` attribute; the not-found branch returns the literal
string, the found branch calls the attribute inside `try`, converting an
exception into the `Error executing` string. -/
def execute_tool_call (env : TurnEnv) (tool_call : ToolCallReq) :
    Except String PyVal :=
  match env.jsonLoads tool_call.arguments with
  | .error m => .error m
  | .ok function_args =>
    if toolkit_attr_names.contains tool_call.name then
      match env.invoke tool_call.name function_args with
      | .ok v => .ok v
      | .error m =>
        .ok (.str ("Error executing " ++ tool_call.name ++ ": " ++ m))
    else
      .ok (.str ("Function " ++ tool_call.name
        ++ " not found. Please try again."))

/-- The `for tool_call in tool_calls` loop (lines 227-230): collect each
per-call result; an exception raised by `_execute_tool_call` (only the
`json.loads` one is possible) aborts the loop and propagates. -/
def run_tool_calls (env : TurnEnv) : List ToolCallReq → Except String (List PyVal)
  | [] => .ok []
  | c :: cs =>
    match execute_tool_call env c with
    | .error m => .error m
    | .ok r =>
      match run_tool_calls env cs with
      | .error m => .error m
      | .ok rs => .ok (r :: rs)

/-- Helper for `"\n".join(responses)`: Python raises `TypeError` when a
collected response is not a `str`. -/
def as_strings : List PyVal → Option (List String)
  | [] => some []
  | .str s :: rs => (as_strings rs).map (s :: ·)
  | .other _ :: _ => none

/-- `"\n".join(responses)` (line 231); error = the `TypeError` raised on
a non-string element (the exact Python message is not modelled). -/
def join_responses (rs : List PyVal) : Except String String :=
  match as_strings rs with
  | some ss => .ok (String.intercalate "\n" ss)
  | none => .error "sequence item: expected str instance"

/-- Python truthiness of `message.tool_calls` (`if tool_calls:` line 226):
`None` and the empty list are falsy. -/
def truthy_tool_calls : Option (List ToolCallReq) → Option (List ToolCallReq)
  | none => none
  | some [] => none
  | some (c :: cs) => some (c :: cs)

/-- Python `message.content or "No response generated."` (line 233):
`None` and the empty string are falsy. -/
def content_or_default : Option String → String
  | none => "No response generated."
  | some s => if s = "" then "No response generated." else s

/-- The history-trimming step (lines 239-240):
`self.conversation_history = self.conversation_history[-20:]`
when the length exceeds 20. -/
def trim_history (h : List Message) : List Message :=
  if h.length > 20 then h.drop (h.length - 20) else h

/-- `Chatbot.process_message` (lines 206-245) as a function from the
turn's environment and the current `conversation_history` to the returned
reply and the new `conversation_history`.  Any exception inside the outer
`try` is converted to the `Error processing message` reply; note that the
user message has already been appended when a tool-dispatch exception
(malformed JSON arguments) or the join `TypeError` fires, and that the
trim only runs on the normal path. -/
def process_message (env : TurnEnv) (conversation_history : List Message)
    (user_input : String) : String × List Message :=
  match env.completion (format_messages conversation_history user_input) with
  | .error m => ("Error processing message: " ++ m, conversation_history)
  | .ok message =>
    let h1 := conversation_history ++ [Message.mk "user" user_input]
    match truthy_tool_calls message.tool_calls with
    | some calls =>
      match run_tool_calls env calls with
      | .error m => ("Error processing message: " ++ m, h1)
      | .ok responses =>
        match join_responses responses with
        | .error m => ("Error processing message: " ++ m, h1)
        | .ok response =>
          (response, trim_history (h1 ++ [Message.mk "assistant" response]))
    | none =>
      let response := content_or_default message.content
      (response, trim_history (h1 ++ [Message.mk "assistant" response]))

/-- One property in a tool schema's `properties` dict: its name, its
`type` field and its `description` field. -/
structure ParamProperty where
  name : String
  type : String
  description : String
  deriving DecidableEq, Repr

/-- The `parameters` value of a tool definition: the `type` field, the
`properties` dict, and the `required` list when that key is present. -/
structure ParamSchema where
  type : String
  properties : List ParamProperty
  required : Option (List String)
  deriving DecidableEq, Repr

/-- The `function` value of a tool definition: name, description, and the
`parameters` schema when that key is present. -/
structure ToolFunction where
  name : String
  description : String
  parameters : Option ParamSchema
  deriving DecidableEq, Repr

/-- One entry of the tool catalog: the `type` field and the `function`
dict. -/
structure ToolDescriptor where
  type : String
  function : ToolFunction
  deriving DecidableEq, Repr

/-- `ToolKit.get_tool_definitions` (lines 78-146): the literal five-entry
catalog.  The `get_system_metrics` and `get_current_time_and_date`
entries carry no `parameters` key, and the `get_news` schema carries no
`required` key. -/
def get_tool_definitions : List ToolDescriptor :=
  [⟨"function",
    ⟨"get_weather", "Get current weather information for a location",
     some ⟨"object",
       [⟨"city", "string", "The city name, e.g. London"⟩],
       some ["city"]⟩⟩⟩,
   ⟨"function",
    ⟨"get_news", "Get latest news headlines, optionally filtered by topic",
     some ⟨"object",
       [⟨"topic", "string", "Optional topic to filter news"⟩],
       none⟩⟩⟩,
   ⟨"function",
    ⟨"get_system_metrics", "Get current system performance metrics",
     none⟩⟩,
   ⟨"function",
    ⟨"get_current_time_and_date", "Get the current time and date",
     none⟩⟩,
   ⟨"function",
    ⟨"ask_wolfram", "Query Wolfram Alpha for factual information",
     some ⟨"object",
       [⟨"query", "string", "The query to send to Wolfram Alpha"⟩],
       some ["query"]⟩⟩⟩]

/-- `ToolKit.get_weather` (lines 19-35).  The HTTP request, the JSON
decoding and the `data['main']['temp']` / `data['weather'][0]['description']`
extraction are external; their combined outcome is the argument:
an exception message, or the interpolated temperature and description
strings.  The whole body sits inside `try`, so an exception becomes the
`Error fetching weather data` string. -/
def get_weather (outcome : Except String (String × String))
    (city : String) : String :=
  match outcome with
  | .error e => "Error fetching weather data: " ++ e
  | .ok (temp, desc) =>
    "Current weather in " ++ city ++ ": " ++ temp ++ "°C, " ++ desc

/-- A sequence of turns: thread the conversation history through
successive `process_message` calls, each with its own environment and
user input. -/
def run_turns : List (TurnEnv × String) → List Message → List Message
  | [], h => h
  | (env, u) :: ts, h => run_turns ts (process_message env h u).2

/-- Whether a turn whose completion stage produced `r` reaches the trim
step (equivalently: no exception fires after the user message has been
appended).  `true` when the completion call itself failed, when there are
no truthy tool calls, or when every tool call decodes and the results
join into a string. -/
def completion_no_abort (env : TurnEnv) (r : Except String CompletionMsg) : Bool :=
  match r with
  | .error _ => true
  | .ok message =>
    match truthy_tool_calls message.tool_calls with
    | none => true
    | some calls =>
      match run_tool_calls env calls with
      | .error _ => false
      | .ok responses =>
        match join_responses responses with
        | .error _ => false
        | .ok _ => true

/-- The trim step never leaves more than 20 entries, and leaves short
histories untouched: its result length is `min` of the input length
and 20. -/
theorem trim_history_length_eq (h : List Message) :
    (trim_history h).length = min h.length 20 := by
  unfold trim_history
  split
  · simp only [List.length_drop]
    omega
  · omega

/-- Claim C6: for every user input, the outgoing message list is exactly
the fixed system-prompt message, then the current history in order, then
the new user message, with no other entries (so its length is the
history's length plus two). -/
theorem c6_outgoing_messages (h : List Message) (u : String) :
    format_messages h u
      = Message.mk "system" system_prompt :: (h ++ [Message.mk "user" u])
    ∧ (format_messages h u).length = h.length + 2 := by
  constructor
  · simp [format_messages]
  · simp [format_messages]

/-- Claim C3: if the completion call itself fails with message `m`,
`process_message` returns the reply `"Error processing message: " ++ m`
and leaves the conversation history entirely unchanged. -/
theorem c3_completion_failure (env : TurnEnv) (h : List Message)
    (u m : String)
    (hc : env.completion (format_messages h u) = .error m) :
    process_message env h u = ("Error processing message: " ++ m, h) := by
  simp [process_message, hc]

/-- Environment whose completion call raises. -/
def c3_env : TurnEnv :=
  ⟨fun _ => .error "Connection error.",
   fun _ => .error "unused", fun _ _ => .error "unused"⟩

/-- Witness for C3 at a concrete failing environment. -/
theorem c3_completion_failure_witness :
    process_message c3_env [] "hello"
      = ("Error processing message: Connection error.", []) :=
  c3_completion_failure c3_env [] "hello" "Connection error." rfl

/-- Claim C5: once a history exceeds 20 entries, the trim retains exactly
the most recent 20, content-identical and in order — the input is the
dropped (oldest) prefix followed by the retained suffix. -/
theorem c5_trim_fifo (h : List Message) (hlen : h.length > 20) :
    (trim_history h).length = 20
    ∧ h = h.take (h.length - 20) ++ trim_history h := by
  refine ⟨?_, ?_⟩
  · rw [trim_history_length_eq]
    omega
  · unfold trim_history
    rw [if_pos hlen]
    exact (List.take_append_drop _ _).symm

/-- A concrete 21-entry history. -/
def c5_history : List Message := List.replicate 21 (Message.mk "user" "x")

/-- Witness for C5 on a concrete 21-entry history. -/
theorem c5_trim_fifo_witness :
    c5_history.length > 20
    ∧ ((trim_history c5_history).length = 20
       ∧ c5_history
           = c5_history.take (c5_history.length - 20) ++ trim_history c5_history) :=
  ⟨by decide, c5_trim_fifo c5_history (by decide)⟩

/-- Claim C9: `get_weather` converts any failure into a string
starting with `"Error fetching weather data:"` and never raises; on
success it returns the one-line interpolation containing the temperature
and the description. -/
theorem c9_get_weather_total (outcome : Except String (String × String))
    (city : String) :
    (∀ m, outcome = .error m →
      get_weather outcome city = "Error fetching weather data: " ++ m
      ∧ ∃ rest, get_weather outcome city
          = "Error fetching weather data:" ++ rest)
    ∧ (∀ temp desc, outcome = .ok (temp, desc) →
      get_weather outcome city
        = "Current weather in " ++ city ++ ": " ++ temp ++ "°C, " ++ desc
      ∧ (∃ a b, get_weather outcome city = a ++ (temp ++ b))
      ∧ (∃ a, get_weather outcome city = a ++ desc)) := by
  constructor
  · intro m hm
    subst hm
    refine ⟨rfl, ⟨" " ++ m, ?_⟩⟩
    have hlit : ("Error fetching weather data:" ++ " " : String)
        = "Error fetching weather data: " := by decide
    show "Error fetching weather data: " ++ m
      = "Error fetching weather data:" ++ (" " ++ m)
    rw [← hlit, String.append_assoc]
  · intro temp desc ho
    subst ho
    refine ⟨rfl, ⟨"Current weather in " ++ city ++ ": ", "°C, " ++ desc, ?_⟩,
      ⟨"Current weather in " ++ city ++ ": " ++ temp ++ "°C, ", rfl⟩⟩
    simp only [get_weather, String.append_assoc]

/-- Witness for C9: a raised network error and a successful fetch. -/
theorem c9_get_weather_total_witness :
    get_weather (.error "Connection timed out") "Nowhere"
      = "Error fetching weather data: Connection timed out"
    ∧ get_weather (.ok ("15", "clear sky")) "London"
      = "Current weather in London: 15°C, clear sky" :=
  ⟨((c9_get_weather_total (.error "Connection timed out") "Nowhere").1
      "Connection timed out" rfl).1,
   ((c9_get_weather_total (.ok ("15", "clear sky")) "London").2
      "15" "clear sky" rfl).1⟩

/-- Step bound: a turn that reaches the trim step (no exception after the
user-message append) leaves at most 20 entries when it started with at
most 20. -/
theorem process_message_length_le (env : TurnEnv) (h : List Message)
    (u : String)
    (hna : completion_no_abort env (env.completion (format_messages h u)) = true)
    (hlen : h.length ≤ 20) :
    (process_message env h u).2.length ≤ 20 := by
  unfold completion_no_abort at hna
  cases hc : env.completion (format_messages h u) with
  | error m =>
    simp only [process_message, hc]
    exact hlen
  | ok message =>
    simp only [hc] at hna
    cases ht : truthy_tool_calls message.tool_calls with
    | none =>
      simp only [process_message, hc, ht]
      rw [trim_history_length_eq]
      exact Nat.min_le_right _ _
    | some calls =>
      simp only [ht] at hna
      cases hr : run_tool_calls env calls with
      | error m => simp [hr] at hna
      | ok responses =>
        simp only [hr] at hna
        cases hj : join_responses responses with
        | error m => simp [hj] at hna
        | ok response =>
          simp only [process_message, hc, ht, hr, hj]
          rw [trim_history_length_eq]
          exact Nat.min_le_right _ _

/-- Claim C1 (amended): over any sequence of turns in which no turn is
aborted by an exception raised after the user-message append (malformed
tool-call arguments or a non-string tool result), the history length
stays at most 20 after every call. -/
theorem c1_history_bound (ts : List (TurnEnv × String)) (h : List Message)
    (hab : ∀ p ∈ ts, ∀ msgs,
      completion_no_abort p.1 (p.1.completion msgs) = true)
    (hlen : h.length ≤ 20) :
    (run_turns ts h).length ≤ 20 := by
  induction ts generalizing h with
  | nil => simpa [run_turns] using hlen
  | cons p ts ih =>
    obtain ⟨env, u⟩ := p
    simp only [run_turns]
    exact ih (process_message env h u).2
      (fun q hq msgs => hab q (List.mem_cons_of_mem _ hq) msgs)
      (process_message_length_le env h u
        (hab _ (List.mem_cons_self _ _) _) hlen)

/-- A turn whose completion answers with plain text and no tool calls. -/
def good_turn : TurnEnv :=
  ⟨fun _ => .ok ⟨some "ok", none⟩,
   fun _ => .error "unused", fun _ _ => .error "unused"⟩

/-- Witness for the amended C1: one clean turn from an empty history. -/
theorem c1_history_bound_witness :
    (run_turns [(good_turn, "hi")] []).length ≤ 20 :=
  c1_history_bound [(good_turn, "hi")] []
    (by
      intro p hp msgs
      simp only [List.mem_singleton] at hp
      subst hp
      rfl)
    (by decide)

/-- A turn whose completion requests one tool call carrying arguments
that `json.loads` rejects: the decode exception fires after the user
message was appended and before the trim. -/
def bad_args_turn : TurnEnv :=
  ⟨fun _ => .ok ⟨none, some [⟨"get_weather", "not json"⟩]⟩,
   fun _ => .error "Expecting value: line 1 column 1 (char 0)",
   fun _ _ => .error "unused"⟩

/-- Ten clean turns filling the history to 20 entries, then one turn
aborted by a JSON decode failure. -/
def c1_turns : List (TurnEnv × String) :=
  List.replicate 10 (good_turn, "hi") ++ [(bad_args_turn, "hi")]

/-- Counterexample to C1 as stated: after this eleventh call the history
holds 21 entries — the aborted turn appended the user message but the
exception skipped the trim. -/
theorem c1_counterexample :
    ¬ (run_turns c1_turns []).length ≤ 20 := by decide

/-- Claim C7 (amended): on a completion with no truthy tool calls, the
reply is the direct text content when that content is present and
nonempty (and when the history held at most 18 entries, exactly the user
and assistant messages are appended, in order); when the content is
absent — or empty, which Python's `or` treats the same — the reply is the
literal `"No response generated."`. -/
theorem c7_direct_reply (env : TurnEnv) (h : List Message) (u : String)
    (message : CompletionMsg)
    (hc : env.completion (format_messages h u) = .ok message)
    (ht : truthy_tool_calls message.tool_calls = none) :
    (∀ c, message.content = some c → c ≠ "" →
      (process_message env h u).1 = c
      ∧ (h.length ≤ 18 →
          (process_message env h u).2
            = h ++ [Message.mk "user" u, Message.mk "assistant" c]))
    ∧ ((message.content = none ∨ message.content = some "") →
        (process_message env h u).1 = "No response generated.") := by
  constructor
  · intro c hcont hne
    have hrep : (process_message env h u).1 = c := by
      simp [process_message, hc, ht, hcont, content_or_default, hne]
    refine ⟨hrep, fun hlen => ?_⟩
    have hsnd : (process_message env h u).2
        = trim_history ((h ++ [Message.mk "user" u])
            ++ [Message.mk "assistant" c]) := by
      simp [process_message, hc, ht, hcont, content_or_default, hne]
    rw [hsnd]
    unfold trim_history
    rw [if_neg (by simp; omega)]
    simp
  · rintro (hcont | hcont) <;>
      simp [process_message, hc, ht, hcont, content_or_default]

/-- Environment answering `"Hello"` with no tool calls. -/
def c7_env : TurnEnv :=
  ⟨fun _ => .ok ⟨some "Hello", none⟩,
   fun _ => .error "unused", fun _ _ => .error "unused"⟩

/-- Witness for C7: `process_message` on `"hi"` returns `"Hello"` and
appends exactly the user and assistant messages. -/
theorem c7_direct_reply_witness :
    (process_message c7_env [] "hi").1 = "Hello"
    ∧ (process_message c7_env [] "hi").2
        = [Message.mk "user" "hi", Message.mk "assistant" "Hello"] := by
  have hmain := (c7_direct_reply c7_env [] "hi" ⟨some "Hello", none⟩ rfl rfl).1
    "Hello" rfl (by decide)
  exact ⟨hmain.1, by simpa using hmain.2 (by decide)⟩

/-- Environment answering the empty string as content, no tool calls. -/
def c7_empty_env : TurnEnv :=
  ⟨fun _ => .ok ⟨some "", none⟩,
   fun _ => .error "unused", fun _ _ => .error "unused"⟩

/-- Counterexample to C7 as stated: with content present but empty, the
reply is the fallback text, not the content. -/
theorem c7_counterexample :
    (process_message c7_empty_env [] "hi").1 = "No response generated."
    ∧ (process_message c7_empty_env [] "hi").1 ≠ "" := by decide

/-- Joining a single string response is that string. -/
theorem join_responses_singleton (s : String) :
    join_responses [PyVal.str s] = .ok s := rfl

/-- Claim C2 (amended): after a successful decode, any failure raised by
the invoked tool is converted to the `"Error executing <name>: <message>"`
string and a successful invocation is returned as is — nothing is thrown;
a failure in `json.loads` itself, however, propagates out of the dispatch
and the outer per-turn handler converts it to
`"Error processing message: <message>"` (leaving the already-appended
user message in the history). -/
theorem c2_dispatch_errors (env : TurnEnv) (name argstr : String) :
    (∀ m, env.jsonLoads argstr = .error m →
      execute_tool_call env ⟨name, argstr⟩ = .error m)
    ∧ (∀ args, env.jsonLoads argstr = .ok args →
        toolkit_attr_names.contains name = true →
        (∀ v, env.invoke name args = .ok v →
          execute_tool_call env ⟨name, argstr⟩ = .ok v)
        ∧ (∀ m, env.invoke name args = .error m →
            execute_tool_call env ⟨name, argstr⟩
              = .ok (.str ("Error executing " ++ name ++ ": " ++ m))))
    ∧ (∀ h u message calls m,
        env.completion (format_messages h u) = .ok message →
        truthy_tool_calls message.tool_calls = some calls →
        run_tool_calls env calls = .error m →
        (process_message env h u).1 = "Error processing message: " ++ m
        ∧ (process_message env h u).2 = h ++ [Message.mk "user" u]) := by
  refine ⟨?_, ?_, ?_⟩
  · intro m hm
    simp [execute_tool_call, hm]
  · intro args hargs hattr
    constructor
    · intro v hv
      simp only [execute_tool_call, hargs]
      rw [if_pos hattr]
      simp [hv]
    · intro m hm
      simp only [execute_tool_call, hargs]
      rw [if_pos hattr]
      simp [hm]
  · intro h u message calls m hc ht hr
    constructor <;> simp [process_message, hc, ht, hr]

/-- Environment whose single requested tool call carries arguments that
`json.loads` rejects. -/
def c2_env_decode : TurnEnv :=
  ⟨fun _ => .ok ⟨none, some [⟨"get_weather", "bad"⟩]⟩,
   fun _ => .error "Unterminated string starting at: line 1 column 1 (char 0)",
   fun _ _ => .error "unused"⟩

/-- Environment where decoding succeeds and the invoked tool raises. -/
def c2_env_invoke : TurnEnv :=
  ⟨fun _ => .ok ⟨none, some [⟨"get_news", "topicargs"⟩]⟩,
   fun _ => .ok "decoded", fun _ _ => .error "boom"⟩

/-- Witness for the amended C2: the decode failure propagates and is
converted by the outer handler; the invocation failure is converted at
the dispatch. -/
theorem c2_dispatch_errors_witness :
    execute_tool_call c2_env_decode ⟨"get_weather", "bad"⟩
      = .error "Unterminated string starting at: line 1 column 1 (char 0)"
    ∧ (process_message c2_env_decode [] "hi").1
      = "Error processing message: Unterminated string starting at: line 1 column 1 (char 0)"
    ∧ execute_tool_call c2_env_invoke ⟨"get_news", "topicargs"⟩
      = .ok (.str "Error executing get_news: boom") := by
  refine ⟨?_, ?_, ?_⟩
  · exact (c2_dispatch_errors c2_env_decode "get_weather" "bad").1 _ rfl
  · exact (((c2_dispatch_errors c2_env_decode "get_weather" "bad").2.2
      [] "hi" ⟨none, some [⟨"get_weather", "bad"⟩]⟩ [⟨"get_weather", "bad"⟩]
      _ rfl rfl rfl).1).trans (by decide)
  · exact (((c2_dispatch_errors c2_env_invoke "get_news" "topicargs").2.1
      "decoded" rfl (by decide)).2 "boom" rfl).trans (by decide)

/-- Environment for the C2 counterexample: malformed JSON arguments. -/
def c2_cex_env : TurnEnv :=
  ⟨fun _ => .ok ⟨none, some [⟨"get_weather", "oops"⟩]⟩,
   fun _ => .error "Expecting value: line 1 column 2 (char 1)",
   fun _ _ => .error "unused"⟩

/-- Counterexample to C2 as stated: a decoding failure is thrown upward
past the dispatch boundary (the per-call outcome is an exception, not the
`"Error executing ..."` string). -/
theorem c2_counterexample :
    execute_tool_call c2_cex_env ⟨"get_weather", "oops"⟩
      = .error "Expecting value: line 1 column 2 (char 1)"
    ∧ execute_tool_call c2_cex_env ⟨"get_weather", "oops"⟩
      ≠ .ok (.str
          "Error executing get_weather: Expecting value: line 1 column 2 (char 1)") := by
  decide

/-- Claim C4 (amended): for a tool-call request whose argument string
decodes successfully and whose function name is not an attribute of the
toolkit, the per-call result is exactly the not-found string, and a turn
consisting of that single call returns it as the reply (no exception
escapes `process_message`). -/
theorem c4_unknown_function (env : TurnEnv) (h : List Message)
    (u name argstr : String) (args : Args) (message : CompletionMsg)
    (hc : env.completion (format_messages h u) = .ok message)
    (ht : message.tool_calls = some [⟨name, argstr⟩])
    (hd : env.jsonLoads argstr = .ok args)
    (hn : toolkit_attr_names.contains name = false) :
    execute_tool_call env ⟨name, argstr⟩
      = .ok (.str ("Function " ++ name ++ " not found. Please try again."))
    ∧ (process_message env h u).1
      = "Function " ++ name ++ " not found. Please try again." := by
  have hexec : execute_tool_call env ⟨name, argstr⟩
      = .ok (.str ("Function " ++ name ++ " not found. Please try again.")) := by
    simp only [execute_tool_call, hd]
    rw [if_neg (by rw [hn]; simp)]
  refine ⟨hexec, ?_⟩
  have htr : truthy_tool_calls message.tool_calls
      = some [⟨name, argstr⟩] := by
    rw [ht]
    rfl
  have hrun : run_tool_calls env [⟨name, argstr⟩]
      = .ok [.str ("Function " ++ name ++ " not found. Please try again.")] := by
    simp [run_tool_calls, hexec]
  simp [process_message, hc, htr, hrun, join_responses_singleton]

/-- Environment requesting the unknown tool `delete_all_files` with
well-formed (empty-object) arguments. -/
def c4_env : TurnEnv :=
  ⟨fun _ => .ok ⟨none, some [⟨"delete_all_files", "emptyobject"⟩]⟩,
   fun _ => .ok "empty-dict", fun _ _ => .error "unused"⟩

/-- Witness for the amended C4 at the concrete unknown name. -/
theorem c4_unknown_function_witness :
    (process_message c4_env [] "wipe everything").1
      = "Function delete_all_files not found. Please try again." := by
  have h := c4_unknown_function c4_env [] "wipe everything"
    "delete_all_files" "emptyobject" "empty-dict"
    ⟨none, some [⟨"delete_all_files", "emptyobject"⟩]⟩ rfl rfl rfl (by decide)
  exact h.2.trans (by decide)

/-- Environment for the C4 counterexample: the unknown name arrives with
malformed JSON arguments. -/
def c4_bad_env : TurnEnv :=
  ⟨fun _ => .ok ⟨none, some [⟨"delete_all_files", "@@"⟩]⟩,
   fun _ => .error "Expecting value: line 1 column 1 (char 0)",
   fun _ _ => .error "unused"⟩

/-- Counterexample to C4 as stated: when the argument string is malformed
JSON, the decode exception fires before the registry lookup, so the
per-call result is not the not-found string and the reply comes from the
outer handler instead. -/
theorem c4_counterexample :
    execute_tool_call c4_bad_env ⟨"delete_all_files", "@@"⟩
      ≠ .ok (.str "Function delete_all_files not found. Please try again.")
    ∧ (process_message c4_bad_env [] "hi").1
      = "Error processing message: Expecting value: line 1 column 1 (char 0)" := by
  decide

/-- Claim C10: after a successful decode, the not-found branch is taken
exactly when the requested name is not a (truthy) attribute of the
toolkit; any attribute name — not only the five advertised tools, e.g.
`get_tool_definitions` or `api_keys` — is treated as found and invoked,
with invocation failures surfacing as `"Error executing ..."` text. -/
theorem c10_attr_lookup (env : TurnEnv) (name argstr : String)
    (args : Args) (hd : env.jsonLoads argstr = .ok args) :
    (toolkit_attr_names.contains name = false →
      execute_tool_call env ⟨name, argstr⟩
        = .ok (.str ("Function " ++ name ++ " not found. Please try again.")))
    ∧ (toolkit_attr_names.contains name = true →
        execute_tool_call env ⟨name, argstr⟩
          = (match env.invoke name args with
             | .ok v => .ok v
             | .error m =>
               .ok (.str ("Error executing " ++ name ++ ": " ++ m))))
    ∧ toolkit_attr_names.contains "get_tool_definitions" = true
    ∧ toolkit_attr_names.contains "api_keys" = true := by
  refine ⟨fun hn => ?_, fun hy => ?_, by decide, by decide⟩
  · simp only [execute_tool_call, hd]
    rw [if_neg (by rw [hn]; simp)]
  · simp only [execute_tool_call, hd]
    rw [if_pos hy]

/-- Environment whose invoke oracle matches what calling the two
non-tool attributes does in Python: calling the classmethod
`get_tool_definitions` returns a (non-string) list, calling the dict
`api_keys` raises a `TypeError`. -/
def c10_env : TurnEnv :=
  ⟨fun _ => .ok ⟨none, none⟩, fun _ => .ok "empty-args",
   fun nm _ =>
     if nm = "get_tool_definitions"
     then .ok (.other "list of tool definition dicts")
     else .error "TypeError: not callable"⟩

/-- Witness for C10: `get_tool_definitions` and `api_keys` are dispatched
as found, while an unknown name takes the not-found branch. -/
theorem c10_attr_lookup_witness :
    execute_tool_call c10_env ⟨"get_tool_definitions", "nullargs"⟩
      = .ok (.other "list of tool definition dicts")
    ∧ execute_tool_call c10_env ⟨"api_keys", "nullargs"⟩
      = .ok (.str "Error executing api_keys: TypeError: not callable")
    ∧ execute_tool_call c10_env ⟨"delete_everything", "nullargs"⟩
      = .ok (.str "Function delete_everything not found. Please try again.") := by
  refine ⟨?_, ?_, ?_⟩
  · exact ((c10_attr_lookup c10_env "get_tool_definitions" "nullargs"
      "empty-args" rfl).2.1 (by decide)).trans (by decide)
  · exact ((c10_attr_lookup c10_env "api_keys" "nullargs"
      "empty-args" rfl).2.1 (by decide)).trans (by decide)
  · exact ((c10_attr_lookup c10_env "delete_everything" "nullargs"
      "empty-args" rfl).1 (by decide)).trans (by decide)

/-- Claim C8 (amended): the catalog is the fixed five-tool list (weather,
news, system metrics, current time, math/facts query), every entry is of
type `function`, the weather, news and math/facts entries carry a
JSON-schema-like parameter description (with `city` required for weather
and `query` required for the math/facts query, and no `required` key for
news), while the system-metrics and current-time entries carry no
`parameters` key; as a definition-time constant it is pure and identical
on every call. -/
theorem c8_tool_catalog :
    get_tool_definitions.map (fun d => d.function.name)
      = ["get_weather", "get_news", "get_system_metrics",
         "get_current_time_and_date", "ask_wolfram"]
    ∧ get_tool_definitions.length = 5
    ∧ (∀ d ∈ get_tool_definitions, d.type = "function")
    ∧ get_tool_definitions.map (fun d => d.function.parameters.isSome)
      = [true, true, false, false, true]
    ∧ get_tool_definitions.map
        (fun d => d.function.parameters.map (fun p => p.required))
      = [some (some ["city"]), some none, none, none, some (some ["query"])]
    ∧ get_tool_definitions.map
        (fun d => d.function.parameters.map
          (fun p => p.properties.map (fun q => q.name)))
      = [some ["city"], some ["topic"], none, none, some ["query"]] := by
  refine ⟨by decide, by decide, by decide, by decide, by decide, by decide⟩

/-- Counterexample to C8 as stated: the third entry of the catalog — the
`get_system_metrics` tool — carries no parameter description at all, so
not every entry has one. -/
theorem c8_counterexample :
    (get_tool_definitions.get? 2).map (fun d => d.function.name)
      = some "get_system_metrics"
    ∧ (get_tool_definitions.get? 2).map (fun d => d.function.parameters)
      = some none := by decide

end AIChatbot
